import Mathlib

/-!
Shallow embedding of `src/network/src/validator_network/network_builder.rs`
(the `NetworkBuilder` bootstrap/wiring component of the libra validator
network), together with theorems settling the specification claims about it.

Modelling conventions:
* Rust `panic!` / `.expect(msg)` is modelled as `Except.error msg`; the happy
  path is `Except.ok`.
* Channels created at wiring time are modelled by opaque numeric endpoint
  identifiers allocated from a fresh-counter field `next_chan`; a sender and
  its paired receiver share one identifier.  Channel capacity/queue-style
  parameters are carried where the Rust signature has them.
* The tokio executor handle, metrics counters and log statements are pure
  side effects with no influence on the wiring state and are omitted.
* Types from sibling crates not present under `src/` (`PeerId`,
  `x25519`, `NetworkAddress`, `NetworkPublicKeys`, `HANDSHAKE_VERSION`) are
  modelled from the spec, as marked on each definition.
-/

namespace LibraNet

/-- Modelled from the spec: an x25519 public key (crate `libra_crypto`, not
under `src/`); "NetworkPublicKeys — a peer's identity public key".  The key
material is abstracted to a numeral. -/
structure PublicKey where
  bytes : Nat
deriving DecidableEq, Repr, Inhabited

/-- Modelled from the spec: an x25519 private key (crate `libra_crypto`, not
under `src/`).  The only operation the builder uses is `public_key()`, which
is a deterministic function of the key; we record that function's value as a
field. -/
structure PrivateKey where
  pub : PublicKey
deriving DecidableEq, Repr, Inhabited

/-- Rust `x25519::PrivateKey::public_key`: deterministic projection to the
corresponding public key. -/
def PrivateKey.public_key (k : PrivateKey) : PublicKey := k.pub

/-- Modelled from the spec: "PeerId — opaque unique identifier for a network
participant. Equality/hash based on identity bytes." (crate `libra_types`,
not under `src/`).  Abstracted to a numeral standing for the identity bytes. -/
structure PeerId where
  addr : Nat
deriving DecidableEq, Repr, Inhabited

/-- Modelled from the spec: `PeerId::default()` is the all-zero peer id
(crate `libra_types`, not under `src/`). -/
def PeerId.default : PeerId := ⟨0⟩

/-- Modelled from the spec: `PeerId::from_identity_public_key` (crate
`libra_types`, not under `src/`): "derive the PeerId from the public key …
This derivation must be pure and deterministic — same public key always
yields same derived PeerId."  Modelled as an injective pure function of the
public key bytes; the offset keeps the spec-level distinction between raw
key bytes and derived identity bytes visible. -/
def PeerId.from_identity_public_key (pk : PublicKey) : PeerId := ⟨pk.bytes + 1⟩

/-- Modelled from the spec: one segment of a multi-segment network address,
"a network-layer segment (ip4/ip6/memory), a transport segment (tcp/port),
and, for authenticated dialing, appended identity segments carrying the
expected public key and a handshake-protocol version number"
(crate `libra_network_address`, not under `src/`).  A `Dns` segment is
included so that unsupported network layers are representable. -/
inductive Protocol where
  | Ip4 (addr : Nat)
  | Ip6 (addr : Nat)
  | Dns (name : String)
  | Tcp (port : Nat)
  | Memory (port : Nat)
  | NoiseIK (pubkey : PublicKey)
  | Handshake (version : Nat)
deriving DecidableEq, Repr

/-- Modelled from the spec: "NetworkAddress — structured multi-protocol
address", a sequence of protocol segments (crate `libra_network_address`,
not under `src/`). -/
abbrev NetworkAddress := List Protocol

/-- Modelled from the spec: the path-like text form of one address segment
("addresses are multi-segment path-like strings"), used only inside the
fatal unsupported-address message. -/
def Protocol.toText : Protocol → String
  | .Ip4 a => "/ip4/" ++ toString a
  | .Ip6 a => "/ip6/" ++ toString a
  | .Dns n => "/dns/" ++ n
  | .Tcp p => "/tcp/" ++ toString p
  | .Memory p => "/memory/" ++ toString p
  | .NoiseIK pk => "/ln-noise-ik/" ++ toString pk.bytes
  | .Handshake v => "/ln-handshake/" ++ toString v

/-- Modelled from the spec: the path-like text form of a whole address. -/
def NetworkAddress.toText (a : NetworkAddress) : String :=
  String.join (a.map Protocol.toText)

/-- Modelled from the spec: `HANDSHAKE_VERSION` (crate `libra_config`, not
under `src/`), "a handshake-protocol version number" appended for
authenticated dialing.  The concrete value is irrelevant to every claim. -/
def HANDSHAKE_VERSION : Nat := 0

/-- Rust `NetworkAddress::append_prod_protos` as used at
`add_gossip_discovery` (crate `libra_network_address`, not under `src/`),
modelled from the spec: appends the identity segments (expected public key
and handshake version) to an address. -/
def NetworkAddress.append_prod_protos (a : NetworkAddress) (pk : PublicKey)
    (hv : Nat) : NetworkAddress :=
  a ++ [Protocol.NoiseIK pk, Protocol.Handshake hv]

/-- Modelled from the spec: "NetworkPublicKeys — a peer's identity public key
(and any auxiliary signing key) used to authenticate it during handshake"
(module `crate::common`, not under `src/`). -/
structure NetworkPublicKeys where
  identity_public_key : PublicKey
  signing_public_key : PublicKey
deriving DecidableEq, Repr

/-- Modelled from the spec: `RoleType` (crate `libra_config`, not under
`src/`): a node is a validator or a full node. -/
inductive RoleType where
  | Validator
  | FullNode
deriving DecidableEq, Repr, Inhabited

/-- Modelled from the spec: queue style of a bounded channel, the per-channel
"overflow policy (drop-oldest vs. reject) … decided at wiring time"
(crate `channel::message_queues`, not under `src/`). -/
inductive QueueStyle where
  | FIFO
  | LIFO
deriving DecidableEq, Repr

/-- A channel endpoint identifier; a sender and its paired receiver share
one identifier (see the modelling conventions above). -/
abbrev Chan := Nat

/-- Rust `ProtocolId` (an enum of wire protocols, crate-level, not under
`src/`); abstracted to a numeral so theorems quantify over arbitrary
protocol identifiers. -/
abbrev ProtocolId := Nat

/-- Source constant `NETWORK_CHANNEL_SIZE`. -/
def NETWORK_CHANNEL_SIZE : Nat := 1024

/-- Source constant `DISCOVERY_INTERVAL_MS`. -/
def DISCOVERY_INTERVAL_MS : Nat := 1000

/-- Source constant `PING_INTERVAL_MS`. -/
def PING_INTERVAL_MS : Nat := 1000

/-- Source constant `PING_TIMEOUT_MS`. -/
def PING_TIMEOUT_MS : Nat := 10000

/-- Source constant `PING_FAILURES_TOLERATED`. -/
def PING_FAILURES_TOLERATED : Nat := 10

/-- Source constant `CONNECTIVITY_CHECK_INTERNAL_MS` (sic, source spelling). -/
def CONNECTIVITY_CHECK_INTERNAL_MS : Nat := 5000

/-- Source constant `MAX_CONCURRENT_NETWORK_REQS`. -/
def MAX_CONCURRENT_NETWORK_REQS : Nat := 100

/-- Source constant `MAX_CONCURRENT_NETWORK_NOTIFS`. -/
def MAX_CONCURRENT_NETWORK_NOTIFS : Nat := 100

/-- Source constant `MAX_CONNECTION_DELAY_MS = 10 * 60 * 1000` (ten
minutes). -/
def MAX_CONNECTION_DELAY_MS : Nat := 10 * 60 * 1000

/-- Source enum `AuthenticationMode`: `ServerOnly` pins only the dialer side,
`Mutual` authenticates both sides against the trusted peers set. -/
inductive AuthenticationMode where
  | ServerOnly (key : PrivateKey)
  | Mutual (key : PrivateKey)
deriving DecidableEq, Repr

/-- Source `AuthenticationMode::public_key`: retrieve the public key of the
mode's inner network identity key. -/
def AuthenticationMode.public_key : AuthenticationMode → PublicKey
  | .ServerOnly key => key.public_key
  | .Mutual key => key.public_key

/-- A `HashMap` modelled as an association list with at most one binding per
key; `insertH` replaces any previous binding (Rust `HashMap::insert`). -/
abbrev HashMapL (K V : Type) := List (K × V)

/-- Rust `HashMap::insert`: bind `k` to `v`, silently replacing any previous
binding of `k`. -/
def insertH {K V : Type} [DecidableEq K] : HashMapL K V → K → V → HashMapL K V
  | [], k, v => [(k, v)]
  | (k1, v1) :: m, k, v =>
    if k1 = k then (k, v) :: m else (k1, v1) :: insertH m k v

/-- Rust `HashMap::get`: look up the binding of `k`, if any (first match;
`insertH` maintains at-most-one-binding-per-key). -/
def lookupH {K V : Type} [DecidableEq K] : HashMapL K V → K → Option V
  | [], _ => none
  | (k, v) :: m, p => if p = k then some v else lookupH m p

/-- Source struct `NetworkBuilder` (fields in source order; the tokio
executor handle is omitted, `network_id` is abstracted to a numeral, and
`next_chan` is the fresh-counter for channel-endpoint allocation per the
modelling conventions). -/
structure NetworkBuilder where
  network_id : Nat
  peer_id : PeerId
  role : RoleType
  listen_address : NetworkAddress
  advertised_address : Option NetworkAddress
  seed_peers : HashMapL PeerId (List NetworkAddress)
  trusted_peers : HashMapL PeerId NetworkPublicKeys
  authentication_mode : Option AuthenticationMode
  channel_size : Nat
  direct_send_protocols : List ProtocolId
  rpc_protocols : List ProtocolId
  discovery_interval_ms : Nat
  ping_interval_ms : Nat
  ping_timeout_ms : Nat
  ping_failures_tolerated : Nat
  upstream_handlers : HashMapL ProtocolId Chan
  connection_event_handlers : List Chan
  pm_reqs_tx : Chan
  pm_reqs_rx : Chan
  connection_reqs_tx : Chan
  connection_reqs_rx : Chan
  conn_mgr_reqs_tx : Option Chan
  connectivity_check_interval_ms : Nat
  max_concurrent_network_reqs : Nat
  max_concurrent_network_notifs : Nat
  max_connection_delay_ms : Nat
  next_chan : Chan
deriving DecidableEq, Repr

/-- Source `NetworkBuilder::new`: a builder with every configuration knob at
its default; the two peer-manager channels are allocated here (endpoints 0
and 1). -/
def NetworkBuilder.new (network_id : Nat) (peer_id : PeerId)
    (role : RoleType) (listen_address : NetworkAddress) : NetworkBuilder :=
  { network_id := network_id
    peer_id := peer_id
    role := role
    listen_address := listen_address
    advertised_address := none
    seed_peers := []
    trusted_peers := []
    authentication_mode := none
    channel_size := NETWORK_CHANNEL_SIZE
    direct_send_protocols := []
    rpc_protocols := []
    discovery_interval_ms := DISCOVERY_INTERVAL_MS
    ping_interval_ms := PING_INTERVAL_MS
    ping_timeout_ms := PING_TIMEOUT_MS
    ping_failures_tolerated := PING_FAILURES_TOLERATED
    upstream_handlers := []
    connection_event_handlers := []
    pm_reqs_tx := 0
    pm_reqs_rx := 0
    connection_reqs_tx := 1
    connection_reqs_rx := 1
    conn_mgr_reqs_tx := none
    connectivity_check_interval_ms := CONNECTIVITY_CHECK_INTERNAL_MS
    max_concurrent_network_reqs := MAX_CONCURRENT_NETWORK_REQS
    max_concurrent_network_notifs := MAX_CONCURRENT_NETWORK_NOTIFS
    max_connection_delay_ms := MAX_CONNECTION_DELAY_MS
    next_chan := 2 }

/-- Source `NetworkBuilder::authentication_mode` (chainable setter; renamed
with a `set_` prefix because the Lean field projection already carries the
source name). -/
def NetworkBuilder.set_authentication_mode (b : NetworkBuilder)
    (authentication_mode : AuthenticationMode) : NetworkBuilder :=
  { b with authentication_mode := some authentication_mode }

/-- Source `NetworkBuilder::advertised_address` (setter; renamed as above). -/
def NetworkBuilder.set_advertised_address (b : NetworkBuilder)
    (advertised_address : NetworkAddress) : NetworkBuilder :=
  { b with advertised_address := some advertised_address }

/-- Source `NetworkBuilder::trusted_peers` (setter; renamed as above):
`*self.trusted_peers.write().unwrap() = trusted_peers`, a wholesale
replacement of the shared registry contents. -/
def NetworkBuilder.set_trusted_peers (b : NetworkBuilder)
    (trusted_peers : HashMapL PeerId NetworkPublicKeys) : NetworkBuilder :=
  { b with trusted_peers := trusted_peers }

/-- Source `NetworkBuilder::seed_peers` (setter; renamed as above). -/
def NetworkBuilder.set_seed_peers (b : NetworkBuilder)
    (seed_peers : HashMapL PeerId (List NetworkAddress)) : NetworkBuilder :=
  { b with seed_peers := seed_peers }

/-- Source `NetworkBuilder::discovery_interval_ms` (setter; renamed as
above). -/
def NetworkBuilder.set_discovery_interval_ms (b : NetworkBuilder)
    (discovery_interval_ms : Nat) : NetworkBuilder :=
  { b with discovery_interval_ms := discovery_interval_ms }

/-- Source `NetworkBuilder::connectivity_check_interval_ms` (setter; renamed
as above). -/
def NetworkBuilder.set_connectivity_check_interval_ms (b : NetworkBuilder)
    (connectivity_check_interval_ms : Nat) : NetworkBuilder :=
  { b with connectivity_check_interval_ms := connectivity_check_interval_ms }

/-- Source `NetworkBuilder::supported_protocols`: the advertised protocol
set, direct-send protocols chained with rpc protocols. -/
def NetworkBuilder.supported_protocols (b : NetworkBuilder) :
    List ProtocolId :=
  b.direct_send_protocols ++ b.rpc_protocols

/-- The four handles returned by `NetworkBuilder::add_protocol_handler`:
a request sender towards the peer manager, the new protocol-notification
receiver, a connection-request sender, and the new connection-event
receiver. -/
structure ProtocolHandlerHandles where
  pm_reqs_sender : Chan
  network_notifs_rx : Chan
  connection_reqs_sender : Chan
  connection_notifs_rx : Chan
deriving DecidableEq, Repr

/-- Source `NetworkBuilder::add_protocol_handler`: extends the direct-send
and rpc protocol lists, creates one protocol-notification channel shared by
all of the call's protocols, inserts it into `upstream_handlers` for each
protocol (rpc protocols first, then direct-send, as in the source
iterator chain), creates one connection-event channel and appends its
sender to `connection_event_handlers`. -/
def NetworkBuilder.add_protocol_handler (b : NetworkBuilder)
    (rpc_protocols : List ProtocolId) (direct_send_protocols : List ProtocolId)
    (queue_preference : QueueStyle) (max_queue_size_per_peer : Nat) :
    NetworkBuilder × ProtocolHandlerHandles :=
  let _ := queue_preference
  let _ := max_queue_size_per_peer
  let network_notifs_chan := b.next_chan
  let connection_notifs_chan := b.next_chan + 1
  let upstream := (rpc_protocols ++ direct_send_protocols).foldl
    (fun m protocol => insertH m protocol network_notifs_chan)
    b.upstream_handlers
  ({ b with
      direct_send_protocols := b.direct_send_protocols ++ direct_send_protocols
      rpc_protocols := b.rpc_protocols ++ rpc_protocols
      upstream_handlers := upstream
      connection_event_handlers :=
        b.connection_event_handlers ++ [connection_notifs_chan]
      next_chan := b.next_chan + 2 },
   { pm_reqs_sender := b.pm_reqs_tx
     network_notifs_rx := network_notifs_chan
     connection_reqs_sender := b.connection_reqs_tx
     connection_notifs_rx := connection_notifs_chan })

/-- Source `NetworkBuilder::add_connection_event_listener`: creates one
connection-event channel, appends its sender to
`connection_event_handlers`, and returns the receiver. -/
def NetworkBuilder.add_connection_event_listener (b : NetworkBuilder) :
    NetworkBuilder × Chan :=
  ({ b with
      connection_event_handlers :=
        b.connection_event_handlers ++ [b.next_chan]
      next_chan := b.next_chan + 1 },
   b.next_chan)

/-- The backoff strategy `ExponentialBackoff::from_millis(2).factor(1000)`
handed to the connectivity manager (crate `tokio_retry`, not under `src/`):
a base of 2 ms with multiplicative factor 1000. -/
structure ExponentialBackoff where
  base_ms : Nat
  factor : Nat
deriving DecidableEq, Repr

/-- The constructor arguments `NetworkBuilder::add_connectivity_manager`
passes to `ConnectivityManager::new` (the manager itself lives outside
`src/`; only the hand-off is modelled). -/
structure ConnectivityManagerArgs where
  peer_id : PeerId
  trusted_peers : HashMapL PeerId NetworkPublicKeys
  seed_peers : HashMapL PeerId (List NetworkAddress)
  tick_interval_ms : Nat
  connection_reqs_sender : Chan
  conn_notifs_rx : Chan
  conn_mgr_reqs_rx : Chan
  backoff : ExponentialBackoff
  max_connection_delay_ms : Nat
deriving DecidableEq, Repr

/-- Source `NetworkBuilder::add_connectivity_manager`: creates the
connectivity-request channel, records its sender in `conn_mgr_reqs_tx`,
subscribes a connection-event listener, and constructs the
`ConnectivityManager` from the stored configuration values with an
exponential backoff strategy of base 2 ms and factor 1000. -/
def NetworkBuilder.add_connectivity_manager (b : NetworkBuilder) :
    NetworkBuilder × ConnectivityManagerArgs :=
  let conn_mgr_chan := b.next_chan
  let b1 := { b with
    conn_mgr_reqs_tx := some conn_mgr_chan
    next_chan := b.next_chan + 1 }
  let bl := b1.add_connection_event_listener
  (bl.1,
   { peer_id := bl.1.peer_id
     trusted_peers := bl.1.trusted_peers
     seed_peers := bl.1.seed_peers
     tick_interval_ms := bl.1.connectivity_check_interval_ms
     connection_reqs_sender := bl.1.connection_reqs_tx
     conn_notifs_rx := bl.2
     conn_mgr_reqs_rx := conn_mgr_chan
     backoff := { base_ms := 2, factor := 1000 }
     max_connection_delay_ms := bl.1.max_connection_delay_ms })

/-- Modelled from the spec: the protocol identifier of the gossip discovery
protocol, registered by `discovery::add_to_network` (module
`crate::protocols::discovery`, not under `src/`), a direct-send protocol
that "exchanges the full set of known peer network addresses with connected
peers". -/
def DISCOVERY_DIRECT_SEND_PROTOCOL : ProtocolId := 9001

/-- The constructor arguments `NetworkBuilder::add_gossip_discovery` passes
to `Discovery::new` (the actor itself lives outside `src/`; only the
hand-off is modelled). -/
structure DiscoveryArgs where
  peer_id : PeerId
  role : RoleType
  advertised_addrs : List NetworkAddress
  tick_interval_ms : Nat
  discovery_network_tx : Chan
  discovery_network_rx : Chan
  conn_mgr_reqs_tx : Chan
deriving DecidableEq, Repr

/-- Source `NetworkBuilder::add_gossip_discovery`: requires the connectivity
manager (`.expect("ConnectivityManager not enabled")`), registers the
discovery protocol on the network (`discovery::add_to_network`, modelled as
an `add_protocol_handler` call for the discovery protocol), requires the
authentication mode (`.expect("Authentication Mode not set")`), and starts
the discovery actor on the advertised (or listen) address extended with the
identity segments. -/
def NetworkBuilder.add_gossip_discovery (b : NetworkBuilder) :
    Except String (NetworkBuilder × DiscoveryArgs) :=
  let peer_id := b.peer_id
  match b.conn_mgr_reqs_tx with
  | none => Except.error "ConnectivityManager not enabled"
  | some conn_mgr_reqs_tx =>
    let bh :=
      b.add_protocol_handler [] [DISCOVERY_DIRECT_SEND_PROTOCOL]
        QueueStyle.FIFO NETWORK_CHANNEL_SIZE
    let advertised_address := bh.1.advertised_address.getD bh.1.listen_address
    match bh.1.authentication_mode with
    | none => Except.error "Authentication Mode not set"
    | some authentication_mode =>
      let pubkey := authentication_mode.public_key
      let advertised := advertised_address.append_prod_protos pubkey HANDSHAKE_VERSION
      Except.ok (bh.1,
        { peer_id := peer_id
          role := bh.1.role
          advertised_addrs := [advertised]
          tick_interval_ms := bh.1.discovery_interval_ms
          discovery_network_tx := bh.2.pm_reqs_sender
          discovery_network_rx := bh.2.network_notifs_rx
          conn_mgr_reqs_tx := conn_mgr_reqs_tx })

/-- Which base transport `build` selects for the listen address. -/
inductive BaseTransport where
  | LibraTcp
  | Memory
deriving DecidableEq, Repr, Inhabited

/-- The constructor arguments `build` passes to `LibraNetTransport::new`
(the transport itself lives outside `src/`; only the hand-off is
modelled). -/
structure TransportArgs where
  base : BaseTransport
  peer_id : PeerId
  key : PrivateKey
  maybe_trusted_peers : Option (HashMapL PeerId NetworkPublicKeys)
  handshake_version : Nat
  network_id : Nat
  protos : List ProtocolId
deriving DecidableEq, Repr, Inhabited

/-- The constructor arguments `build_with_transport` passes to
`PeerManager::new` (the peer manager itself lives outside `src/`; only the
hand-off is modelled). -/
structure PeerManagerArgs where
  peer_id : PeerId
  role : RoleType
  listen_address : NetworkAddress
  pm_reqs_rx : Chan
  connection_reqs_rx : Chan
  upstream_handlers : HashMapL ProtocolId Chan
  connection_event_handlers : List Chan
  max_concurrent_network_reqs : Nat
  max_concurrent_network_notifs : Nat
  channel_size : Nat
deriving DecidableEq, Repr, Inhabited

/-- Everything `build` wires together on success. -/
structure BuildOutput where
  transport : TransportArgs
  peer_manager : PeerManagerArgs
deriving DecidableEq, Repr, Inhabited

/-- The fatal message of `build` for an unsupported listen address, naming
the address (the source `panic!` format string). -/
def unsupported_listen_address_msg (a : NetworkAddress) : String :=
  "Unsupported listen_address: " ++ a.toText ++
    ", expected /memory/<port>, /ip4/<addr>/tcp/<port>, or /ip6/<addr>/tcp/<port>."

/-- Source `NetworkBuilder::build_with_transport`: hands the accumulated
wiring state to `PeerManager::new`. -/
def NetworkBuilder.build_with_transport (b : NetworkBuilder)
    (transport : TransportArgs) : BuildOutput :=
  { transport := transport
    peer_manager :=
      { peer_id := b.peer_id
        role := b.role
        listen_address := b.listen_address
        pm_reqs_rx := b.pm_reqs_rx
        connection_reqs_rx := b.connection_reqs_rx
        upstream_handlers := b.upstream_handlers
        connection_event_handlers := b.connection_event_handlers
        max_concurrent_network_reqs := b.max_concurrent_network_reqs
        max_concurrent_network_notifs := b.max_concurrent_network_notifs
        channel_size := b.channel_size } }

/-- The mode dispatch inlined at the top of the source `build` (the
`let (key, maybe_trusted_peers, peer_id) = match authentication_mode`
block): under `ServerOnly` with the default peer id the peer id is derived
from the identity public key; under `ServerOnly` otherwise the
caller-supplied peer id is kept; under `Mutual` the trusted-peers handle is
passed along with the caller-supplied peer id. -/
def NetworkBuilder.resolve_identity (b : NetworkBuilder)
    (authentication_mode : AuthenticationMode) :
    PrivateKey × Option (HashMapL PeerId NetworkPublicKeys) × PeerId :=
  match authentication_mode with
  | AuthenticationMode.ServerOnly key =>
    if b.peer_id = PeerId.default then
      let public_key := key.public_key
      let peer_id := PeerId.from_identity_public_key public_key
      (key, none, peer_id)
    else
      (key, none, b.peer_id)
  | AuthenticationMode.Mutual key =>
    (key, some b.trusted_peers, b.peer_id)

/-- The `LibraNetTransport::new` argument bundle `build` constructs (the
source repeats this constructor call at each accepted listen-address arm;
the bundles differ only in the base transport). -/
def NetworkBuilder.mkTransportArgs (b : NetworkBuilder)
    (authentication_mode : AuthenticationMode) (base : BaseTransport) :
    TransportArgs :=
  { base := base
    peer_id := (b.resolve_identity authentication_mode).2.2
    key := (b.resolve_identity authentication_mode).1
    maybe_trusted_peers := (b.resolve_identity authentication_mode).2.1
    handshake_version := HANDSHAKE_VERSION
    network_id := b.network_id
    protos := b.supported_protocols }

/-- Source `NetworkBuilder::build`: requires the authentication mode
(`.expect("Authentication Mode not set")`), resolves the identity key, the
optional trusted-peers handle and the peer id from the mode (see
`resolve_identity`), then dispatches on the listen-address shape:
`[Ip4, Tcp]` and `[Ip6, Tcp]` select the tcp transport, `[Memory]` the
memory transport, anything else is a fatal unsupported-address panic. -/
def NetworkBuilder.build (b : NetworkBuilder) : Except String BuildOutput :=
  match b.authentication_mode with
  | none => Except.error "Authentication Mode not set"
  | some authentication_mode =>
    match b.listen_address with
    | [Protocol.Ip4 _, Protocol.Tcp _] =>
      Except.ok (b.build_with_transport
        (b.mkTransportArgs authentication_mode BaseTransport.LibraTcp))
    | [Protocol.Ip6 _, Protocol.Tcp _] =>
      Except.ok (b.build_with_transport
        (b.mkTransportArgs authentication_mode BaseTransport.LibraTcp))
    | [Protocol.Memory _] =>
      Except.ok (b.build_with_transport
        (b.mkTransportArgs authentication_mode BaseTransport.Memory))
    | _ => Except.error (unsupported_listen_address_msg b.listen_address)

/-- A sample identity key used by concrete witness configurations. -/
def sampleKey : PrivateKey := ⟨⟨5⟩⟩

/-- A sample builder: ServerOnly mode, default (unset) peer id, memory
listen address. -/
def sampleServerOnlyBuilder : NetworkBuilder :=
  (NetworkBuilder.new 0 PeerId.default RoleType.FullNode
    [Protocol.Memory 1]).set_authentication_mode
    (AuthenticationMode.ServerOnly sampleKey)

/-- The build output of `sampleServerOnlyBuilder`. -/
def sampleServerOnlyOutput : BuildOutput :=
  sampleServerOnlyBuilder.build.toOption.getD default

/-- A sample builder: Mutual mode, explicit nonzero peer id, ip4/tcp listen
address, one trusted peer. -/
def sampleMutualBuilder : NetworkBuilder :=
  ((NetworkBuilder.new 0 ⟨7⟩ RoleType.Validator
    [Protocol.Ip4 1, Protocol.Tcp 80]).set_authentication_mode
    (AuthenticationMode.Mutual sampleKey)).set_trusted_peers
    [(⟨9⟩, ⟨⟨11⟩, ⟨12⟩⟩)]

/-- The build output of `sampleMutualBuilder`. -/
def sampleMutualOutput : BuildOutput :=
  sampleMutualBuilder.build.toOption.getD default

/-- A sample builder on which no authentication mode was ever set. -/
def sampleUnsetModeBuilder : NetworkBuilder :=
  NetworkBuilder.new 0 ⟨7⟩ RoleType.FullNode [Protocol.Memory 1]

/-- A second ServerOnly configuration with the same identity key as
`sampleServerOnlyBuilder` but a different network id and listen address,
for the determinism witness. -/
def sampleServerOnlyBuilderB : NetworkBuilder :=
  (NetworkBuilder.new 3 PeerId.default RoleType.FullNode
    [Protocol.Ip4 8, Protocol.Tcp 9]).set_authentication_mode
    (AuthenticationMode.ServerOnly sampleKey)

/-- The build output of `sampleServerOnlyBuilderB`. -/
def sampleServerOnlyOutputB : BuildOutput :=
  sampleServerOnlyBuilderB.build.toOption.getD default

/-- A sample builder with an unsupported (dns) listen address. -/
def sampleBadAddrBuilder : NetworkBuilder :=
  (NetworkBuilder.new 0 ⟨7⟩ RoleType.FullNode
    [Protocol.Dns "example", Protocol.Tcp 2]).set_authentication_mode
    (AuthenticationMode.ServerOnly sampleKey)

/-- Auxiliary: looking up after a single `insertH`. -/
theorem lookupH_insertH {K V : Type} [DecidableEq K] (m : HashMapL K V)
    (k p : K) (v : V) :
    lookupH (insertH m k v) p = if p = k then some v else lookupH m p := by
  induction m with
  | nil => simp [insertH, lookupH]
  | cons kv t ih =>
    obtain ⟨k1, v1⟩ := kv
    by_cases h1 : k1 = k
    · subst h1
      by_cases hp : p = k1 <;> simp [insertH, lookupH, hp]
    · by_cases hp1 : p = k1 <;> by_cases hpk : p = k <;>
        simp_all [insertH, lookupH]

/-- Auxiliary: looking up after folding `insertH` of one channel over a list
of protocols. -/
theorem lookupH_fold_insert {K V : Type} [DecidableEq K] (ps : List K)
    (m : HashMapL K V) (c : V) (p : K) :
    lookupH (ps.foldl (fun acc q => insertH acc q c) m) p
      = if p ∈ ps then some c else lookupH m p := by
  induction ps generalizing m with
  | nil => simp
  | cons q t ih =>
    simp only [List.foldl_cons, ih, lookupH_insertH, List.mem_cons]
    by_cases hpt : p ∈ t
    · simp [hpt]
    · by_cases hpq : p = q <;> simp [hpt, hpq]

/-- Auxiliary: every successful `build` ships the mode-resolved identity
triple to the transport and the accumulated wiring state to the peer
manager. -/
theorem build_ok_spec (b : NetworkBuilder) (out : BuildOutput)
    (hok : b.build = Except.ok out) :
    ∃ am, b.authentication_mode = some am ∧
      out.transport.key = (b.resolve_identity am).1 ∧
      out.transport.maybe_trusted_peers = (b.resolve_identity am).2.1 ∧
      out.transport.peer_id = (b.resolve_identity am).2.2 ∧
      out.peer_manager.upstream_handlers = b.upstream_handlers ∧
      out.peer_manager.connection_event_handlers = b.connection_event_handlers := by
  unfold NetworkBuilder.build at hok
  split at hok
  next hm => exact Except.noConfusion hok
  next am hm =>
    refine ⟨am, hm, ?_⟩
    split at hok <;>
      first
        | (simp only [Except.ok.injEq] at hok
           subst hok
           simp [NetworkBuilder.build_with_transport, NetworkBuilder.mkTransportArgs])
        | exact Except.noConfusion hok

/-- Auxiliary: with the authentication mode set, `build` reduces to the
listen-address dispatch. -/
theorem build_some_mode (b : NetworkBuilder) (am : AuthenticationMode)
    (hm : b.authentication_mode = some am) :
    b.build = match b.listen_address with
      | [Protocol.Ip4 _, Protocol.Tcp _] =>
        Except.ok (b.build_with_transport
          (b.mkTransportArgs am BaseTransport.LibraTcp))
      | [Protocol.Ip6 _, Protocol.Tcp _] =>
        Except.ok (b.build_with_transport
          (b.mkTransportArgs am BaseTransport.LibraTcp))
      | [Protocol.Memory _] =>
        Except.ok (b.build_with_transport
          (b.mkTransportArgs am BaseTransport.Memory))
      | _ => Except.error (unsupported_listen_address_msg b.listen_address) := by
  unfold NetworkBuilder.build
  rw [hm]

/-- C1: PeerId derivation in `build` is mode-directed and deterministic:
under `ServerOnly` with the default (unset) peer id the transport's peer id
is derived purely from the mode's public key — any two such configurations
with the same public key resolve to the same peer id — while under
`ServerOnly` with an explicit peer id, and under `Mutual`, the
caller-supplied peer id is used unchanged. -/
theorem build_peer_id_mode_directed (b b2 : NetworkBuilder)
    (key key2 : PrivateKey) (out out2 : BuildOutput)
    (hok : b.build = Except.ok out) :
    (b.authentication_mode = some (AuthenticationMode.ServerOnly key) →
      b.peer_id = PeerId.default →
      out.transport.peer_id = PeerId.from_identity_public_key key.public_key ∧
      (b2.build = Except.ok out2 →
        b2.authentication_mode = some (AuthenticationMode.ServerOnly key2) →
        b2.peer_id = PeerId.default →
        key2.public_key = key.public_key →
        out2.transport.peer_id = out.transport.peer_id)) ∧
    (b.authentication_mode = some (AuthenticationMode.ServerOnly key) →
      b.peer_id ≠ PeerId.default →
      out.transport.peer_id = b.peer_id) ∧
    (b.authentication_mode = some (AuthenticationMode.Mutual key) →
      out.transport.peer_id = b.peer_id) := by
  obtain ⟨am, hm, _, _, hpid, _, _⟩ := build_ok_spec b out hok
  refine ⟨?_, ?_, ?_⟩
  · intro hso hdef
    rw [hm] at hso
    injection hso with ham
    subst ham
    have hder :
        out.transport.peer_id = PeerId.from_identity_public_key key.public_key := by
      rw [hpid]
      simp [NetworkBuilder.resolve_identity, hdef]
    refine ⟨hder, fun hok2 hso2 hdef2 hkeq => ?_⟩
    obtain ⟨am2, hm2, _, _, hpid2, _, _⟩ := build_ok_spec b2 out2 hok2
    rw [hm2] at hso2
    injection hso2 with ham2
    subst ham2
    rw [hpid2, hder]
    simp [NetworkBuilder.resolve_identity, hdef2, hkeq]
  · intro hso hndef
    rw [hm] at hso
    injection hso with ham
    subst ham
    rw [hpid]
    simp [NetworkBuilder.resolve_identity, hndef]
  · intro hmu
    rw [hm] at hmu
    injection hmu with ham
    subst ham
    rw [hpid]
    simp [NetworkBuilder.resolve_identity]

/-- Witness for C1: the concrete ServerOnly configuration with the default
peer id derives its peer id from the sample key, and a second configuration
with the same key (different network id and address) derives the same one. -/
theorem build_peer_id_mode_directed_witness :
    sampleServerOnlyBuilder.build = Except.ok sampleServerOnlyOutput ∧
    sampleServerOnlyOutput.transport.peer_id
      = PeerId.from_identity_public_key sampleKey.public_key ∧
    sampleServerOnlyOutputB.transport.peer_id
      = sampleServerOnlyOutput.transport.peer_id := by
  have hok : sampleServerOnlyBuilder.build = Except.ok sampleServerOnlyOutput := by
    rfl
  have hok2 : sampleServerOnlyBuilderB.build = Except.ok sampleServerOnlyOutputB := by
    rfl
  have h := build_peer_id_mode_directed sampleServerOnlyBuilder
    sampleServerOnlyBuilderB sampleKey sampleKey
    sampleServerOnlyOutput sampleServerOnlyOutputB hok
  have h1 := h.1 rfl rfl
  exact ⟨hok, h1.1, h1.2 hok2 rfl rfl rfl⟩

/-- C2: `build` enables registry-based handshake authentication exactly when
the mode is `Mutual`: the transport carries the shared trusted-peers handle
iff the mode is `Mutual`, and carries `none` iff the mode is `ServerOnly`. -/
theorem build_trusted_peers_iff_mutual (b : NetworkBuilder)
    (out : BuildOutput) (hok : b.build = Except.ok out) :
    (out.transport.maybe_trusted_peers = some b.trusted_peers ↔
      (∃ key, b.authentication_mode = some (AuthenticationMode.Mutual key))) ∧
    (out.transport.maybe_trusted_peers = none ↔
      (∃ key, b.authentication_mode = some (AuthenticationMode.ServerOnly key))) := by
  obtain ⟨am, hm, _, htp, _, _, _⟩ := build_ok_spec b out hok
  cases am with
  | ServerOnly key =>
    have hnone : out.transport.maybe_trusted_peers = none := by
      rw [htp]
      by_cases hd : b.peer_id = PeerId.default <;>
        simp [NetworkBuilder.resolve_identity, hd]
    refine ⟨⟨fun hsome => ?_, fun ⟨k, hk⟩ => ?_⟩,
      ⟨fun _ => ⟨key, hm⟩, fun _ => hnone⟩⟩
    · rw [hnone] at hsome
      exact Option.noConfusion hsome
    · rw [hm] at hk
      injection hk with h
      exact AuthenticationMode.noConfusion h
  | Mutual key =>
    have hsome : out.transport.maybe_trusted_peers = some b.trusted_peers := by
      rw [htp]
      simp [NetworkBuilder.resolve_identity]
    refine ⟨⟨fun _ => ⟨key, hm⟩, fun _ => hsome⟩,
      ⟨fun hn => ?_, fun ⟨k, hk⟩ => ?_⟩⟩
    · rw [hsome] at hn
      exact Option.noConfusion hn
    · rw [hm] at hk
      injection hk with h
      exact AuthenticationMode.noConfusion h

/-- Witness for C2: the concrete Mutual configuration ships its registry
handle to the transport, and the concrete ServerOnly configuration ships
`none`. -/
theorem build_trusted_peers_iff_mutual_witness :
    sampleMutualOutput.transport.maybe_trusted_peers
      = some sampleMutualBuilder.trusted_peers ∧
    sampleServerOnlyOutput.transport.maybe_trusted_peers = none := by
  have hok : sampleMutualBuilder.build = Except.ok sampleMutualOutput := by rfl
  have hok2 : sampleServerOnlyBuilder.build = Except.ok sampleServerOnlyOutput := by
    rfl
  exact ⟨(build_trusted_peers_iff_mutual sampleMutualBuilder
      sampleMutualOutput hok).1.mpr ⟨sampleKey, rfl⟩,
    (build_trusted_peers_iff_mutual sampleServerOnlyBuilder
      sampleServerOnlyOutput hok2).2.mpr ⟨sampleKey, rfl⟩⟩

/-- C9: the "no explicitly configured PeerId" test in `build` is equality
with the default (all-zero) peer id: under `ServerOnly` the key-derived
branch is taken exactly when the configured peer id equals
`PeerId.default` — so a caller who explicitly supplies the default peer id
is indistinguishable from one who supplied none, and has it silently
replaced by the key-derived peer id — while under `Mutual` the default peer
id is never replaced. -/
theorem server_only_default_peer_id_sentinel (b : NetworkBuilder)
    (key : PrivateKey) (out : BuildOutput) (hok : b.build = Except.ok out) :
    (b.authentication_mode = some (AuthenticationMode.ServerOnly key) →
      out.transport.peer_id =
        (if b.peer_id = PeerId.default
         then PeerId.from_identity_public_key key.public_key
         else b.peer_id)) ∧
    (b.authentication_mode = some (AuthenticationMode.Mutual key) →
      out.transport.peer_id = b.peer_id) := by
  obtain ⟨am, hm, _, _, hpid, _, _⟩ := build_ok_spec b out hok
  constructor
  · intro hso
    rw [hm] at hso
    injection hso with ham
    subst ham
    rw [hpid]
    by_cases hd : b.peer_id = PeerId.default <;>
      simp [NetworkBuilder.resolve_identity, hd]
  · intro hmu
    rw [hm] at hmu
    injection hmu with ham
    subst ham
    rw [hpid]
    simp [NetworkBuilder.resolve_identity]

/-- Witness for C9: `sampleServerOnlyBuilder` explicitly supplies the
default peer id and has it replaced by the key-derived one; the Mutual
configuration keeps its caller-supplied peer id. -/
theorem server_only_default_peer_id_sentinel_witness :
    sampleServerOnlyBuilder.peer_id = PeerId.default ∧
    sampleServerOnlyOutput.transport.peer_id
      = PeerId.from_identity_public_key sampleKey.public_key ∧
    sampleMutualOutput.transport.peer_id = sampleMutualBuilder.peer_id := by
  have hok : sampleServerOnlyBuilder.build = Except.ok sampleServerOnlyOutput := by
    rfl
  have hok2 : sampleMutualBuilder.build = Except.ok sampleMutualOutput := by rfl
  have h := (server_only_default_peer_id_sentinel sampleServerOnlyBuilder
    sampleKey sampleServerOnlyOutput hok).1 rfl
  have h2 := (server_only_default_peer_id_sentinel sampleMutualBuilder
    sampleKey sampleMutualOutput hok2).2 rfl
  exact ⟨rfl, by rw [h]; rfl, h2⟩

/-- C3: starting without an authentication mode is fatal at startup: if the
mode was never set, `build` panics with "Authentication Mode not set", and
`add_gossip_discovery` (which reads the mode for the advertised address)
likewise panics with a descriptive message rather than proceeding. -/
theorem missing_authentication_mode_fatal (b : NetworkBuilder)
    (h : b.authentication_mode = none) :
    b.build = Except.error "Authentication Mode not set" ∧
    ∃ msg, b.add_gossip_discovery = Except.error msg := by
  constructor
  · unfold NetworkBuilder.build
    rw [h]
  · cases hc : b.conn_mgr_reqs_tx with
    | none =>
      refine ⟨"ConnectivityManager not enabled", ?_⟩
      unfold NetworkBuilder.add_gossip_discovery
      rw [hc]
    | some c =>
      refine ⟨"Authentication Mode not set", ?_⟩
      unfold NetworkBuilder.add_gossip_discovery
      rw [hc]
      simp [NetworkBuilder.add_protocol_handler, h]

/-- Witness for C3: the concrete builder that never set a mode fails to
build with the fatal message. -/
theorem missing_authentication_mode_fatal_witness :
    sampleUnsetModeBuilder.build
      = Except.error "Authentication Mode not set" :=
  (missing_authentication_mode_fatal sampleUnsetModeBuilder rfl).1

/-- C4: listen-address validation at bootstrap: with an authentication mode
set, `build` accepts exactly the shapes `[Ip4, Tcp]`, `[Ip6, Tcp]` and
`[Memory]`, and for every other shape fails fatally with the message naming
the unsupported address. -/
theorem build_listen_address_validation (b : NetworkBuilder)
    (am : AuthenticationMode) (hm : b.authentication_mode = some am) :
    ((∃ out, b.build = Except.ok out) ↔
      ((∃ a p, b.listen_address = [Protocol.Ip4 a, Protocol.Tcp p]) ∨
       (∃ a p, b.listen_address = [Protocol.Ip6 a, Protocol.Tcp p]) ∨
       (∃ p, b.listen_address = [Protocol.Memory p]))) ∧
    (¬((∃ a p, b.listen_address = [Protocol.Ip4 a, Protocol.Tcp p]) ∨
       (∃ a p, b.listen_address = [Protocol.Ip6 a, Protocol.Tcp p]) ∨
       (∃ p, b.listen_address = [Protocol.Memory p])) →
      b.build = Except.error (unsupported_listen_address_msg b.listen_address)) := by
  constructor
  · constructor
    · rintro ⟨out, hout⟩
      rw [build_some_mode b am hm] at hout
      split at hout
      · next a p heq => exact Or.inl ⟨a, p, heq⟩
      · next a p heq => exact Or.inr (Or.inl ⟨a, p, heq⟩)
      · next p heq => exact Or.inr (Or.inr ⟨p, heq⟩)
      · exact Except.noConfusion hout
    · rintro (⟨a, p, heq⟩ | ⟨a, p, heq⟩ | ⟨p, heq⟩) <;>
        · rw [build_some_mode b am hm, heq]
          exact ⟨_, rfl⟩
  · intro hns
    rw [build_some_mode b am hm]
    split
    · next a p heq => exact absurd (Or.inl ⟨a, p, heq⟩) hns
    · next a p heq => exact absurd (Or.inr (Or.inl ⟨a, p, heq⟩)) hns
    · next p heq => exact absurd (Or.inr (Or.inr ⟨p, heq⟩)) hns
    · rfl

/-- Witness for C4: the ip4/tcp configuration builds, and the dns/tcp
configuration fails with the message naming its address. -/
theorem build_listen_address_validation_witness :
    sampleMutualBuilder.build = Except.ok sampleMutualOutput ∧
    sampleBadAddrBuilder.build
      = Except.error
          (unsupported_listen_address_msg sampleBadAddrBuilder.listen_address) := by
  have h1 := build_listen_address_validation sampleMutualBuilder
    (AuthenticationMode.Mutual sampleKey) rfl
  have h2 := build_listen_address_validation sampleBadAddrBuilder
    (AuthenticationMode.ServerOnly sampleKey) rfl
  refine ⟨by rfl, h2.2 ?_⟩
  rintro (⟨a, p, heq⟩ | ⟨a, p, heq⟩ | ⟨p, heq⟩) <;>
    simp [sampleBadAddrBuilder, NetworkBuilder.new,
      NetworkBuilder.set_authentication_mode] at heq

/-- C5: gossip discovery fails fast when connectivity management is absent:
if `conn_mgr_reqs_tx` is `None`, `add_gossip_discovery` panics with
"ConnectivityManager not enabled". -/
theorem gossip_discovery_requires_connectivity_manager (b : NetworkBuilder)
    (h : b.conn_mgr_reqs_tx = none) :
    b.add_gossip_discovery = Except.error "ConnectivityManager not enabled" := by
  unfold NetworkBuilder.add_gossip_discovery
  rw [h]

/-- Witness for C5: the fresh builder never called
`add_connectivity_manager`, so gossip discovery fails fast. -/
theorem gossip_discovery_requires_connectivity_manager_witness :
    sampleUnsetModeBuilder.add_gossip_discovery
      = Except.error "ConnectivityManager not enabled" :=
  gossip_discovery_requires_connectivity_manager sampleUnsetModeBuilder rfl

/-- C6: registry updates are wholesale replacement, never a merge: after
`set_trusted_peers m` the shared registry equals exactly `m` (so every
prior entry absent from `m` is gone and lookups answer exactly per `m`). -/
theorem trusted_peers_wholesale_replacement (b : NetworkBuilder)
    (m : HashMapL PeerId NetworkPublicKeys) :
    (b.set_trusted_peers m).trusted_peers = m ∧
    ∀ p, lookupH (b.set_trusted_peers m).trusted_peers p = lookupH m p :=
  ⟨rfl, fun _ => rfl⟩

/-- C7: connection-event fan-out is fixed at wiring time: each
`add_protocol_handler` call and each `add_connection_event_listener` call
appends exactly one new notification channel (the one whose receiver it
returns) to `connection_event_handlers`, and `build` hands exactly the
accumulated list — all registered subscribers and no others — to the peer
manager. -/
theorem connection_event_fanout_wiring (b : NetworkBuilder)
    (rpc ds : List ProtocolId) (qs : QueueStyle) (sz : Nat)
    (out : BuildOutput) :
    (b.add_protocol_handler rpc ds qs sz).1.connection_event_handlers
      = b.connection_event_handlers
        ++ [(b.add_protocol_handler rpc ds qs sz).2.connection_notifs_rx] ∧
    (b.add_connection_event_listener).1.connection_event_handlers
      = b.connection_event_handlers ++ [(b.add_connection_event_listener).2] ∧
    (b.build = Except.ok out →
      out.peer_manager.connection_event_handlers
        = b.connection_event_handlers) := by
  refine ⟨rfl, rfl, fun hok => ?_⟩
  obtain ⟨am, hm, hkey, htp, hpid, hups, hceh⟩ := build_ok_spec b out hok
  exact hceh

/-- Witness for C7: the peer manager of the concrete Mutual build receives
exactly the builder's accumulated subscriber list. -/
theorem connection_event_fanout_wiring_witness :
    sampleMutualBuilder.build = Except.ok sampleMutualOutput ∧
    sampleMutualOutput.peer_manager.connection_event_handlers
      = sampleMutualBuilder.connection_event_handlers := by
  have hok : sampleMutualBuilder.build = Except.ok sampleMutualOutput := by rfl
  exact ⟨hok, (connection_event_fanout_wiring sampleMutualBuilder [] []
    QueueStyle.FIFO 1 sampleMutualOutput).2.2 hok⟩

/-- C8: `new` initializes every configuration knob to its documented
default — in particular the per-peer maximum connection delay to 600000 ms
(ten minutes) and the connectivity check interval to 5000 ms — and
`add_connectivity_manager` passes exactly the stored values, together with
an exponential backoff strategy (base 2 ms, factor 1000), to the
connectivity manager it constructs. -/
theorem default_config_values (nid : Nat) (pid : PeerId) (role : RoleType)
    (la : NetworkAddress) (b : NetworkBuilder) :
    (NetworkBuilder.new nid pid role la).max_connection_delay_ms = 600000 ∧
    MAX_CONNECTION_DELAY_MS = 600000 ∧
    (NetworkBuilder.new nid pid role la).connectivity_check_interval_ms = 5000 ∧
    CONNECTIVITY_CHECK_INTERNAL_MS = 5000 ∧
    (NetworkBuilder.new nid pid role la).channel_size = NETWORK_CHANNEL_SIZE ∧
    (NetworkBuilder.new nid pid role la).discovery_interval_ms
      = DISCOVERY_INTERVAL_MS ∧
    (NetworkBuilder.new nid pid role la).ping_interval_ms = PING_INTERVAL_MS ∧
    (NetworkBuilder.new nid pid role la).ping_timeout_ms = PING_TIMEOUT_MS ∧
    (NetworkBuilder.new nid pid role la).ping_failures_tolerated
      = PING_FAILURES_TOLERATED ∧
    (NetworkBuilder.new nid pid role la).max_concurrent_network_reqs
      = MAX_CONCURRENT_NETWORK_REQS ∧
    (NetworkBuilder.new nid pid role la).max_concurrent_network_notifs
      = MAX_CONCURRENT_NETWORK_NOTIFS ∧
    (b.add_connectivity_manager).2.max_connection_delay_ms
      = b.max_connection_delay_ms ∧
    (b.add_connectivity_manager).2.tick_interval_ms
      = b.connectivity_check_interval_ms ∧
    (b.add_connectivity_manager).2.backoff
      = { base_ms := 2, factor := 1000 } ∧
    (b.add_connectivity_manager).2.trusted_peers = b.trusted_peers ∧
    (b.add_connectivity_manager).2.seed_peers = b.seed_peers ∧
    (b.add_connectivity_manager).2.peer_id = b.peer_id :=
  ⟨rfl, rfl, rfl, rfl, rfl, rfl, rfl, rfl, rfl, rfl, rfl,
   rfl, rfl, rfl, rfl, rfl, rfl⟩

/-- C10: protocol-handler registration is last-writer-wins per protocol id:
when a second `add_protocol_handler` call shares protocol id `p` with an
earlier call, `upstream_handlers` maps `p` to the second call's (fresh,
distinct) notification channel — inbound traffic for `p` routes only to the
most recent handler — while both calls' connection-event channels remain
subscribed and both calls' protocol lists remain appended (possibly
duplicated) in the builder's advertised protocol state. -/
theorem protocol_handler_last_writer_wins (b : NetworkBuilder)
    (rpc1 ds1 rpc2 ds2 : List ProtocolId) (q1 q2 : QueueStyle) (s1 s2 : Nat)
    (p : ProtocolId) (h1 : p ∈ rpc1 ++ ds1) (h2 : p ∈ rpc2 ++ ds2) :
    lookupH ((b.add_protocol_handler rpc1 ds1 q1 s1).1.add_protocol_handler
        rpc2 ds2 q2 s2).1.upstream_handlers p
      = some ((b.add_protocol_handler rpc1 ds1 q1 s1).1.add_protocol_handler
          rpc2 ds2 q2 s2).2.network_notifs_rx ∧
    lookupH (b.add_protocol_handler rpc1 ds1 q1 s1).1.upstream_handlers p
      = some (b.add_protocol_handler rpc1 ds1 q1 s1).2.network_notifs_rx ∧
    ((b.add_protocol_handler rpc1 ds1 q1 s1).1.add_protocol_handler
        rpc2 ds2 q2 s2).2.network_notifs_rx
      ≠ (b.add_protocol_handler rpc1 ds1 q1 s1).2.network_notifs_rx ∧
    (b.add_protocol_handler rpc1 ds1 q1 s1).2.connection_notifs_rx
      ∈ ((b.add_protocol_handler rpc1 ds1 q1 s1).1.add_protocol_handler
          rpc2 ds2 q2 s2).1.connection_event_handlers ∧
    ((b.add_protocol_handler rpc1 ds1 q1 s1).1.add_protocol_handler
        rpc2 ds2 q2 s2).2.connection_notifs_rx
      ∈ ((b.add_protocol_handler rpc1 ds1 q1 s1).1.add_protocol_handler
          rpc2 ds2 q2 s2).1.connection_event_handlers ∧
    ((b.add_protocol_handler rpc1 ds1 q1 s1).1.add_protocol_handler
        rpc2 ds2 q2 s2).1.direct_send_protocols
      = b.direct_send_protocols ++ ds1 ++ ds2 ∧
    ((b.add_protocol_handler rpc1 ds1 q1 s1).1.add_protocol_handler
        rpc2 ds2 q2 s2).1.rpc_protocols
      = b.rpc_protocols ++ rpc1 ++ rpc2 := by
  simp only [NetworkBuilder.add_protocol_handler]
  refine ⟨?_, ?_, ?_, by simp, by simp, by simp, by simp⟩
  · rw [lookupH_fold_insert]
    simp [h2]
  · rw [lookupH_fold_insert]
    simp [h1]
  · intro hcontra
    simp at hcontra

/-- Witness for C10: two concrete calls sharing protocol id 4; the map
routes 4 to the second call's channel. -/
theorem protocol_handler_last_writer_wins_witness :
    lookupH ((sampleUnsetModeBuilder.add_protocol_handler [4] []
        QueueStyle.FIFO 1).1.add_protocol_handler [] [4]
        QueueStyle.LIFO 1).1.upstream_handlers 4
      = some ((sampleUnsetModeBuilder.add_protocol_handler [4] []
          QueueStyle.FIFO 1).1.add_protocol_handler [] [4]
          QueueStyle.LIFO 1).2.network_notifs_rx :=
  (protocol_handler_last_writer_wins sampleUnsetModeBuilder [4] [] [] [4]
    QueueStyle.FIFO QueueStyle.LIFO 1 1 4 (by simp) (by simp)).1

end LibraNet
